import Mathlib

set_option maxHeartbeats 1000000

/-!
A shallow embedding of the KiteSublime editor-integration core
(`lib/listeners.py` and `lib/languages.py`) and proofs about it.

The editor API (`sublime.View`), the transport (`requests.kited_post` /
`requests.kited_get`), the deferred scheduler and the logger are external
collaborators; they are modelled as explicit inputs (a `View` record, the
response status/body of a request, a transport function).  Python `None`
becomes `Option`, a raised exception becomes `Except.error` carrying the
exception name, and the class-level mutable attributes
(`EditorEventListener._last_selection_region`,
`EditorCompletionsListener._received_completions`) become an explicit
state record `St` threaded through the functions.
-/

/-- The selection/edit region dictionary built by
`EditorEventListener._view_region`: `{'file': ..., 'begin': ..., 'end': ...}`.
`file` is `view.file_name()`, which may be Python `None`. -/
structure Region where
  file : Option String
  «begin» : Nat
  «end» : Nat
  deriving DecidableEq, Repr

/-- A snapshot of the editor view, as far as the listeners read it:
`view.file_name()`, `view.size()`, the full text `view.substr(Region(0, size))`,
the selection ranges `view.sel()` as `(a, b)` pairs, and the predicate
`view.match_selector(point, 'meta.function-call.python')`. -/
structure View where
  file_name : Option String
  size : Nat
  text : String
  sel : List (Nat × Nat)
  matchSelector : Nat → Bool

/-- One completion item of the service response body:
`{"display": ..., "hint": ..., "insert": ...}`; a JSON `null` hint is `none`. -/
structure Completion where
  display : String
  hint : Option String
  insert : String
  deriving DecidableEq, Repr

/-- The payload built by `EditorEventListener._event_data`. -/
structure EventData where
  source : String
  filename : Option String
  text : String
  action : String
  selections : List (Nat × Nat)
  deriving DecidableEq, Repr

/-- The mutable class-level state of the listeners:
`EditorEventListener._last_selection_region` and
`EditorCompletionsListener._received_completions` (the completion broker's
pending buffer, protected by `_lock`). -/
structure St where
  last_selection_region : Option Region
  received_completions : List Completion
  deriving DecidableEq, Repr

/-- A request handed to `deferred.defer` by the event pipeline:
the fire-and-forget editor-event post, a queued completions request
(`EditorCompletionsListener.queue_completions view location`), or a queued
signatures request (`EditorSignaturesListener.queue_signatures view location`). -/
inductive Request where
  | eventPost (data : EventData)
  | completions (loc : Nat)
  | signatures (loc : Nat)
  deriving DecidableEq, Repr

/-- `_is_view_supported(view)`:
`view.file_name() is not None and view.file_name().endswith('.py')`.
Python's `str.endswith` is suffix testing on the character sequence. -/
def is_view_supported (view : View) : Bool :=
  match view.file_name with
  | some name => List.isSuffixOf ".py".data name.data
  | none => false

/-- `_check_view_size(view)`: `view.size() <= (1 << 20)`. -/
def check_view_size (view : View) : Bool :=
  view.size ≤ (1 <<< 20)

/-- `EditorEventListener._view_region(view)`: `None` unless the view has
exactly one selection range `r`, in which case
`{'file': view.file_name(), 'begin': r.begin(), 'end': r.end()}`
(Sublime's `r.begin()` / `r.end()` are `min a b` / `max a b`). -/
def view_region (view : View) : Option Region :=
  match view.sel with
  | [r] => some { file := view.file_name, «begin» := min r.1 r.2, «end» := max r.1 r.2 }
  | _ => none

/-- `EditorEventListener._edit_info(selection, edit)`: returns the pair
`(edit_type, num_chars)`, which is `(None, None)` when either region is
absent or the files differ, and otherwise classifies by comparing the
`end` offsets. -/
def edit_info (selection edit : Option Region) : Option String × Option Nat :=
  match selection, edit with
  | some s, some e =>
    if s.file ≠ e.file then (none, none)
    else if e.«end» > s.«end» then (some "insertion", some (e.«end» - s.«end»))
    else if e.«end» < s.«end» then (some "deletion", some (s.«end» - e.«end»))
    else (none, none)
  | _, _ => (none, none)

/-- `EditorEventListener._event_data(view, action)`: the full text and
action, except that an oversized view sends `action='skip'` with empty
text.  `realpath` is an external filesystem call, modelled as the
identity on the view's file name. -/
def event_data (view : View) (action : String) : EventData :=
  let text := view.text
  let p := if ¬ check_view_size view then ("skip", "") else (action, text)
  { source := "sublime3"
    filename := view.file_name
    text := p.2
    action := p.1
    selections := view.sel }

/-- `EditorEventListener._handle(view, action)`.  Returns the list of
deferred requests issued and the updated state, or `Except.error` with
the Python exception name when the handler raises.  The raise happens
when an edit event passes the size check but `_view_region` returned
`None` (zero or several selection ranges): the code then evaluates
`edit_region['end']`, subscripting `None`, a `TypeError`. -/
def handle (view : View) (action : String) (st : St) :
    Except String (List Request × St) :=
  if ¬ is_view_supported view then Except.ok ([], st)
  else
    let reqs0 := [Request.eventPost (event_data view action)]
    let st1 := if action == "selection"
      then { st with last_selection_region := view_region view } else st
    if action == "edit" && check_view_size view then
      let edit_region := view_region view
      let ti := edit_info st1.last_selection_region edit_region
      let step1 : Except String (List Request) :=
        if ti.1 == some "insertion" && ti.2 == some 1 then
          match edit_region with
          | some r => Except.ok (reqs0 ++ [Request.completions r.«end»])
          | none => Except.error "TypeError"
        else Except.ok reqs0
      match step1 with
      | Except.error e => Except.error e
      | Except.ok reqs1 =>
        match edit_region with
        | none => Except.error "TypeError"
        | some r =>
          Except.ok
            ((if view.matchSelector r.«end»
              then reqs1 ++ [Request.signatures r.«end»] else reqs1), st1)
    else Except.ok (reqs0, st1)

/-- `EditorCompletionsListener._brand_completion(symbol, hint)`: Python's
`'{0}\t{1} -𝕜𝕚𝕥𝕖-'.format(symbol, hint) if hint else '{0}\t-𝕜𝕚𝕥𝕖-'.format(symbol)`;
`if hint` is Python truthiness, false for `None` and for the empty string. -/
def brand_completion (symbol : String) (hint : Option String) : String :=
  match hint with
  | some h =>
    if h ≠ "" then symbol ++ "\t" ++ h ++ " -𝕜𝕚𝕥𝕖-"
    else symbol ++ "\t" ++ "-𝕜𝕚𝕥𝕖-"
  | none => symbol ++ "\t" ++ "-𝕜𝕚𝕥𝕖-"

/-- `EditorCompletionsListener.on_query_completions(view, prefix, locations)`:
returns Python `None` (here `Option.none`) on an unsupported or oversized
view or when `len(locations) != 1`; otherwise, under the lock, brands and
copies out the buffered completions, empties the buffer, and returns the
copy. -/
def on_query_completions (view : View) (locations : List Nat) (st : St) :
    Option (List (String × String)) × St :=
  if ¬ is_view_supported view then (none, st)
  else if ¬ check_view_size view then (none, st)
  else if locations.length ≠ 1 then (none, st)
  else
    (some (st.received_completions.map
        (fun c => (brand_completion c.display c.hint, c.insert))),
     { st with received_completions := [] })

/-- The response body of a completions request, as
`EditorCompletionsListener._request_completions` consumes it: a falsy
(empty) body, a body on which `json.loads` raises `ValueError`, or a
parsed object whose `completions` field is a list or JSON `null`. -/
inductive RespBody where
  | empty
  | malformed
  | completionsPayload (cs : Option (List Completion))
  deriving DecidableEq, Repr

/-- `EditorCompletionsListener._request_completions` after the transport
returned `(resp, body)`: drop non-200 statuses; skip a falsy body; a
`ValueError` from `json.loads` is caught and logged; on a parsed body the
extracted list (`resp_data['completions'] or []`) overwrites the buffer
under the lock and `_run_auto_complete` re-runs the UI query.  The second
component records whether `_run_auto_complete` was invoked. -/
def request_completions (status : Nat) (body : RespBody) (st : St) : St × Bool :=
  if status ≠ 200 then (st, false)
  else
    match body with
    | RespBody.empty => (st, false)
    | RespBody.malformed => (st, false)
    | RespBody.completionsPayload cs =>
      ({ st with received_completions := cs.getD [] }, true)

/-- Whether a handler outcome contains a queued completions request;
an outcome that raised queued nothing at the completions endpoint. -/
def queuedCompletionsB (r : Except String (List Request × St)) : Bool :=
  match r with
  | Except.ok (reqs, _) =>
    reqs.any (fun q => match q with | Request.completions _ => true | _ => false)
  | Except.error _ => false

/-- Whether a handler outcome contains a queued signatures request. -/
def queuedSignaturesB (r : Except String (List Request × St)) : Bool :=
  match r with
  | Except.ok (reqs, _) =>
    reqs.any (fun q => match q with | Request.signatures _ => true | _ => false)
  | Except.error _ => false

/-- The response body of a signatures request, as
`EditorSignaturesListener._request_signatures` consumes it. -/
inductive SigBody where
  | empty
  | malformed
  | callsPayload (cs : Option (List String))
  deriving DecidableEq, Repr

/-- `EditorSignaturesListener._request_signatures` after the transport
returned `(resp, body)`: drop non-200; skip falsy body; `ValueError`
caught; otherwise take `resp_data['calls'] or []` and, when non-empty,
show a popup rendering the first call through `_render`.  The template
(`sublime.load_resource` + `str.format`) is an external resource, passed
in as the `render` function.  The result is the popup HTML shown, if any. -/
def request_signatures (render : String → String) (status : Nat) (body : SigBody) :
    Option String :=
  if status ≠ 200 then none
  else
    match body with
    | SigBody.empty => none
    | SigBody.malformed => none
    | SigBody.callsPayload cs =>
      match cs.getD [] with
      | [] => none
      | call :: _ => some (render call)

/-- `languages.SUPPORTED_EXTS_TO_LANG` as an association list. -/
def SUPPORTED_EXTS_TO_LANG : List (String × String) :=
  [(".py", "Python"), (".go", "Go"), (".js", "JavaScript"),
   (".jsx", "JavaScript"), (".vue", "JavaScript")]

/-- `languages._LANG_TO_ENABLED_PATH`. -/
def LANG_TO_ENABLED_PATH : List (String × String) :=
  [("Go", "/clientapi/settings/kite_lexical_enabled"),
   ("JavaScript", "/clientapi/settings/kite_js_enabled")]

/-- `languages.ext_to_lang(ext)`: `SUPPORTED_EXTS_TO_LANG[ext]`, which
raises `KeyError` when the extension is not a key. -/
def ext_to_lang (ext : String) : Except String String :=
  match SUPPORTED_EXTS_TO_LANG.lookup ext with
  | some lang => Except.ok lang
  | none => Except.error "KeyError"

/-- `languages.kited_ext_enabled(ext)`.  The transport
`requests.kited_get` is the external collaborator `kited_get`, whose
failure (`ExpectedError`) is `Except.error ()` and whose success carries
the decoded body text.  Only `ExpectedError` is caught by the `try`
block; the `KeyError` from `ext_to_lang` on an unsupported extension
propagates. -/
def kited_ext_enabled (kited_get : String → Except Unit String) (ext : String) :
    Except String Bool :=
  if ext == ".py" then Except.ok true
  else
    match ext_to_lang ext with
    | Except.error e => Except.error e
    | Except.ok lang =>
      match LANG_TO_ENABLED_PATH.lookup lang with
      | none => Except.error "KeyError"
      | some path =>
        match kited_get path with
        | Except.error _ => Except.ok false
        | Except.ok enabled => Except.ok (enabled == "true")

/-- The spec's edit-classification kind: `insertion`, `deletion` or `none`. -/
inductive EditKind where
  | insertion
  | deletion
  | none
  deriving DecidableEq, Repr

/-- The spec's Edit Classification record `{kind, magnitude}`. -/
structure Classification where
  kind : EditKind
  magnitude : Nat
  deriving DecidableEq, Repr

/-- Modelled from the spec: `classify(previous, current)` — if either
snapshot is absent or the snapshots refer to different documents, `none`
with magnitude 0; otherwise compare the `end` offsets and return
`insertion` / `deletion` with the difference as magnitude, or `none`
when equal. -/
def classify_spec (previous current : Option Region) : Classification :=
  match previous, current with
  | some p, some c =>
    if p.file ≠ c.file then ⟨EditKind.none, 0⟩
    else if c.«end» > p.«end» then ⟨EditKind.insertion, c.«end» - p.«end»⟩
    else if c.«end» < p.«end» then ⟨EditKind.deletion, p.«end» - c.«end»⟩
    else ⟨EditKind.none, 0⟩
  | _, _ => ⟨EditKind.none, 0⟩

/-- The abstraction map from the code's `(edit_type, num_chars)` pair to
the spec's Classification: `(None, None)` is the `none` classification
with magnitude 0. -/
def abstractClassification : Option String × Option Nat → Classification
  | (some "insertion", some n) => ⟨EditKind.insertion, n⟩
  | (some "deletion", some n) => ⟨EditKind.deletion, n⟩
  | _ => ⟨EditKind.none, 0⟩

/-- C2: the code's `_edit_info`, read through the abstraction that maps the
`(None, None)` pair to the `none` classification with magnitude 0, agrees
with the spec's classifier on every pair of (possibly absent) selection
snapshots: `none`/0 for absent snapshots or differing files, `insertion`
with magnitude `current.end - previous.end` when `current.end > previous.end`,
`deletion` with the opposite difference when smaller, `none` when equal.
Both functions are total Lean functions, so no input raises. -/
theorem edit_info_refines_classify_spec (previous current : Option Region) :
    abstractClassification (edit_info previous current)
      = classify_spec previous current := by
  cases previous with
  | none => cases current <;> rfl
  | some p =>
    cases current with
    | none => rfl
    | some c =>
      by_cases hf : p.file ≠ c.file
      · simp [edit_info, classify_spec, hf, abstractClassification]
      · rcases Nat.lt_trichotomy p.«end» c.«end» with h | h | h
        · simp [edit_info, classify_spec, hf, h, Nat.not_lt.mpr (Nat.le_of_lt h),
            abstractClassification]
        · simp [edit_info, classify_spec, hf, h, abstractClassification]
        · simp [edit_info, classify_spec, hf, h, Nat.not_lt.mpr (Nat.le_of_lt h),
            abstractClassification]

/-- C4: every successful completion-response write overwrites the whole
buffer under the lock; for two requests whose background work completes
in either order (`ord` picks which payload lands first), the final buffer
is exactly the payload of whichever write happened last, independent of
the initial buffer and of the other request's payload. -/
theorem completions_buffer_last_write_wins
    (p q : Option (List Completion)) (st : St) (ord : Bool) :
    ((request_completions 200 (RespBody.completionsPayload (if ord then q else p))
        (request_completions 200
          (RespBody.completionsPayload (if ord then p else q)) st).1).1).received_completions
      = (if ord then q else p).getD [] := by
  cases ord <;> simp [request_completions]

/-- C5: a completions request whose response status is not 200, or whose
body fails to parse (`ValueError` from `json.loads`, caught and logged),
completes with no action: the buffer is exactly as before and
`_run_auto_complete` (the UI re-query) is not invoked.  `request_completions`
is a total function, so no exception escapes the task in these cases. -/
theorem request_completions_failure_noop (status : Nat) (body : RespBody) (st : St)
    (h : status ≠ 200 ∨ body = RespBody.malformed) :
    request_completions status body st = (st, false) := by
  rcases h with h | h
  · simp [request_completions, h]
  · subst h
    by_cases hs : status = 200 <;> simp [request_completions, hs]

/-- Witness for C5 at the spec's scenario: status 500 with a well-formed
payload leaves an empty buffer empty and does not re-query the UI. -/
theorem request_completions_failure_noop_witness :
    request_completions 500
      (RespBody.completionsPayload (some [⟨"foo", some "int", "foo()"⟩]))
      ⟨none, []⟩ = (⟨none, []⟩, false) :=
  request_completions_failure_noop 500
    (RespBody.completionsPayload (some [⟨"foo", some "int", "foo()"⟩]))
    ⟨none, []⟩ (Or.inl (by decide))

/-- C7: for a successful (status 200, well-formed) signatures response,
an empty call list (empty or JSON `null`) shows no popup, and a non-empty
call list shows exactly one popup rendering exactly the first call, the
remaining entries having no effect on the result. -/
theorem signatures_renders_first_call_only (render : String → String) :
    request_signatures render 200 (SigBody.callsPayload (some [])) = none
    ∧ request_signatures render 200 (SigBody.callsPayload none) = none
    ∧ ∀ (call : String) (rest : List String),
        request_signatures render 200 (SigBody.callsPayload (some (call :: rest)))
          = some (render call) :=
  ⟨rfl, rfl, fun _ _ => rfl⟩

/-- A small supported Python view with one cursor at offset 3. -/
def viewPy : View :=
  { file_name := some "test.py", size := 4, text := "abcd",
    sel := [(3, 3)], matchSelector := fun _ => false }

/-- A broker state holding the spec scenario's single completion item. -/
def stBuf : St :=
  { last_selection_region := none,
    received_completions := [⟨"foo", some "int", "foo()"⟩] }

/-- The empty listener state. -/
def st0 : St := { last_selection_region := none, received_completions := [] }

/-- C1: on a supported, size-passing view with exactly one cursor
location, `on_query_completions` atomically drains the pending buffer
under the lock: the first call returns the buffered list (branded) and
leaves the buffer empty, and a second consecutive call, with no
intervening successful `_request_completions`, returns the empty list,
the buffer again being empty after every drain. -/
theorem on_query_completions_atomic_drain (view : View) (locations : List Nat) (st : St)
    (hs : is_view_supported view = true) (hz : check_view_size view = true)
    (hl : locations.length = 1) :
    (on_query_completions view locations st).1
      = some (st.received_completions.map
          (fun c => (brand_completion c.display c.hint, c.insert)))
    ∧ ((on_query_completions view locations st).2).received_completions = []
    ∧ (on_query_completions view locations
        ((on_query_completions view locations st).2)).1 = some []
    ∧ ((on_query_completions view locations
        ((on_query_completions view locations st).2)).2).received_completions = [] := by
  simp [on_query_completions, hs, hz, hl]

/-- Witness for C1 at a concrete eligible view with a one-item buffer. -/
theorem on_query_completions_atomic_drain_witness :
    (on_query_completions viewPy [3] stBuf).1
      = some (stBuf.received_completions.map
          (fun c => (brand_completion c.display c.hint, c.insert)))
    ∧ ((on_query_completions viewPy [3] stBuf).2).received_completions = []
    ∧ (on_query_completions viewPy [3]
        ((on_query_completions viewPy [3] stBuf).2)).1 = some []
    ∧ ((on_query_completions viewPy [3]
        ((on_query_completions viewPy [3] stBuf).2)).2).received_completions = [] :=
  on_query_completions_atomic_drain viewPy [3] stBuf (by decide) (by decide) (by decide)

/-- C8: the drained pairs are exactly the buffered items with the label
decorated by `_brand_completion` and the insert text passed through
unchanged; the decoration appends a tab, the hint (when present and
non-empty, per Python truthiness) and the fixed marker `-𝕜𝕚𝕥𝕖-`, and
never touches the insert component. -/
theorem drained_labels_branded_insert_unchanged
    (view : View) (locations : List Nat) (st : St) (d h : String)
    (hs : is_view_supported view = true) (hz : check_view_size view = true)
    (hl : locations.length = 1) (hh : h ≠ "") :
    (on_query_completions view locations st).1
      = some (st.received_completions.map
          (fun c => (brand_completion c.display c.hint, c.insert)))
    ∧ brand_completion d (some h) = d ++ "\t" ++ h ++ " -𝕜𝕚𝕥𝕖-"
    ∧ brand_completion d none = d ++ "\t" ++ "-𝕜𝕚𝕥𝕖-" := by
  refine ⟨?_, ?_, rfl⟩
  · simp [on_query_completions, hs, hz, hl]
  · simp [brand_completion, hh]

/-- Witness for C8 at the spec scenario's item `{"display": "foo",
"hint": "int", "insert": "foo()"}`. -/
theorem drained_labels_branded_insert_unchanged_witness :
    (on_query_completions viewPy [3] stBuf).1
      = some (stBuf.received_completions.map
          (fun c => (brand_completion c.display c.hint, c.insert)))
    ∧ brand_completion "foo" (some "int") = "foo" ++ "\t" ++ "int" ++ " -𝕜𝕚𝕥𝕖-"
    ∧ brand_completion "foo" none = "foo" ++ "\t" ++ "-𝕜𝕚𝕥𝕖-" :=
  drained_labels_branded_insert_unchanged viewPy [3] stBuf "foo" "int"
    (by decide) (by decide) (by decide) (by decide)

/-- C3: on a supported view passing the size check, an edit event queues
a completions request exactly when `_edit_info` classifies the edit as a
single-character insertion; deletions, larger insertions and the
`(None, None)` classification queue none, and no successful handling of
such an event modifies the broker's pending buffer. -/
theorem edit_triggers_completions_iff (view : View) (st : St)
    (hs : is_view_supported view = true) (hz : check_view_size view = true) :
    (queuedCompletionsB (handle view "edit" st) = true
      ↔ edit_info st.last_selection_region (view_region view)
          = (some "insertion", some 1))
    ∧ (∀ reqs st2, handle view "edit" st = Except.ok (reqs, st2) →
        st2.received_completions = st.received_completions) := by
  have hne : (("edit" : String) == "selection") = false := by decide
  cases her : view_region view with
  | none =>
    have hei : edit_info st.last_selection_region none = (none, none) := by
      cases st.last_selection_region <;> rfl
    constructor
    · simp [handle, hs, hz, hne, her, hei, queuedCompletionsB]
    · intro reqs st2 hok
      simp [handle, hs, hz, hne, her, hei] at hok
  | some r =>
    by_cases hcl : edit_info st.last_selection_region (some r)
        = (some "insertion", some 1)
    · constructor
      · simp [handle, hs, hz, hne, her, hcl, queuedCompletionsB]
        split <;> simp
      · intro reqs st2 hok
        simp [handle, hs, hz, hne, her, hcl] at hok
        rw [← hok.2]
    · have hb : ((edit_info st.last_selection_region (some r)).1 == some "insertion"
          && (edit_info st.last_selection_region (some r)).2 == some 1) = false := by
        rcases hti : edit_info st.last_selection_region (some r) with ⟨t, n⟩
        rw [hti] at hcl
        by_cases ht : t = some "insertion"
        · by_cases hn : n = some 1
          · exact absurd (by rw [ht, hn]) hcl
          · simp [ht, hn]
        · simp [ht]
      constructor
      · simp [handle, hs, hz, hne, her, hb, queuedCompletionsB, hcl]
        split <;> simp
      · intro reqs st2 hok
        simp [handle, hs, hz, hne, her, hb] at hok
        rw [← hok.2]

/-- A supported view whose single cursor sits at offset 11, one past the
previously recorded selection end 10 on the same file. -/
def viewIns : View :=
  { file_name := some "test.py", size := 11, text := "abcdefghijk",
    sel := [(11, 11)], matchSelector := fun _ => false }

/-- State recording the previous selection snapshot at end offset 10. -/
def stIns : St :=
  { last_selection_region :=
      some { file := some "test.py", «begin» := 10, «end» := 10 },
    received_completions := [] }

/-- Witness for C3 at the spec's scenario: previous end 10, edit end 11
on the same file classifies as a single-character insertion and queues a
completions request; the buffer is untouched. -/
theorem edit_triggers_completions_iff_witness :
    (queuedCompletionsB (handle viewIns "edit" stIns) = true
      ↔ edit_info stIns.last_selection_region (view_region viewIns)
          = (some "insertion", some 1))
    ∧ (∀ reqs st2, handle viewIns "edit" stIns = Except.ok (reqs, st2) →
        st2.received_completions = stIns.received_completions) :=
  edit_triggers_completions_iff viewIns stIns (by decide) (by decide)

/-- An oversized Python view: one byte over the 1 MiB threshold. -/
def viewBig : View :=
  { file_name := some "big.py", size := (1 <<< 20) + 1, text := "",
    sel := [(0, 0)], matchSelector := fun _ => true }

/-- A view with no on-disk path. -/
def viewNoPath : View :=
  { file_name := none, size := 0, text := "", sel := [],
    matchSelector := fun _ => false }

/-- C6: a view failing the size check never has a completions or a
signatures request queued by the event handler, whatever the action and
the language; a view with no on-disk path is not processed at all: the
handler returns immediately with no request and the state unchanged. -/
theorem ineligible_views_never_request (view : View) (action : String) (st : St) :
    (check_view_size view = false →
      queuedCompletionsB (handle view action st) = false
      ∧ queuedSignaturesB (handle view action st) = false)
    ∧ (view.file_name = none → handle view action st = Except.ok ([], st)) := by
  constructor
  · intro hz
    cases hsup : is_view_supported view
    · simp [handle, hsup, queuedCompletionsB, queuedSignaturesB]
    · simp [handle, hsup, hz, queuedCompletionsB, queuedSignaturesB]
  · intro hf
    simp [handle, is_view_supported, hf]

/-- Witness for C6: the oversized view queues nothing on an edit, and the
pathless view is not processed. -/
theorem ineligible_views_never_request_witness :
    (queuedCompletionsB (handle viewBig "edit" st0) = false
      ∧ queuedSignaturesB (handle viewBig "edit" st0) = false)
    ∧ handle viewNoPath "edit" st0 = Except.ok ([], st0) :=
  ⟨(ineligible_views_never_request viewBig "edit" st0).1 (by decide),
   (ineligible_views_never_request viewNoPath "edit" st0).2 rfl⟩

/-- A transport that always fails with `ExpectedError`. -/
def failGet : String → Except Unit String := fun _ => Except.error ()

/-- A transport that always answers the body `true`. -/
def okGet : String → Except Unit String := fun _ => Except.ok "true"

/-- C9 counterexample: `kited_ext_enabled` is not total — on the
unsupported extension `".txt"` the `SUPPORTED_EXTS_TO_LANG[ext]` lookup
inside `ext_to_lang` raises `KeyError`, which the `except ExpectedError`
clause does not catch, even with a perfectly working transport. -/
theorem kited_ext_enabled_raises_on_unsupported :
    kited_ext_enabled okGet ".txt" = Except.error "KeyError" := by rfl

/-- C9 as amended: `.py` is hard-coded enabled with no lookup (the result
ignores the transport entirely); for the other supported extensions a
transport failure (`ExpectedError`) yields `false`; but an extension
outside the supported set raises an uncaught `KeyError` instead of
returning `false`. -/
theorem kited_ext_enabled_amended (kited_get : String → Except Unit String)
    (extS extU : String)
    (hfail : ∀ path, kited_get path = Except.error ())
    (hS : extS ∈ ([".go", ".js", ".jsx", ".vue"] : List String))
    (hU : SUPPORTED_EXTS_TO_LANG.lookup extU = none) :
    kited_ext_enabled kited_get ".py" = Except.ok true
    ∧ kited_ext_enabled kited_get extS = Except.ok false
    ∧ kited_ext_enabled kited_get extU = Except.error "KeyError" := by
  refine ⟨rfl, ?_, ?_⟩
  · simp only [List.mem_cons, List.not_mem_nil, or_false] at hS
    rcases hS with h | h | h | h <;> subst h
    · have he : kited_ext_enabled kited_get ".go"
          = match kited_get "/clientapi/settings/kite_lexical_enabled" with
            | Except.error _ => Except.ok false
            | Except.ok enabled => Except.ok (enabled == "true") := rfl
      rw [he, hfail]
    · have he : kited_ext_enabled kited_get ".js"
          = match kited_get "/clientapi/settings/kite_js_enabled" with
            | Except.error _ => Except.ok false
            | Except.ok enabled => Except.ok (enabled == "true") := rfl
      rw [he, hfail]
    · have he : kited_ext_enabled kited_get ".jsx"
          = match kited_get "/clientapi/settings/kite_js_enabled" with
            | Except.error _ => Except.ok false
            | Except.ok enabled => Except.ok (enabled == "true") := rfl
      rw [he, hfail]
    · have he : kited_ext_enabled kited_get ".vue"
          = match kited_get "/clientapi/settings/kite_js_enabled" with
            | Except.error _ => Except.ok false
            | Except.ok enabled => Except.ok (enabled == "true") := rfl
      rw [he, hfail]
  · have hpy : (extU == ".py") = false := by
      cases hb : extU == ".py"
      · rfl
      · exfalso
        have heq : extU = ".py" := eq_of_beq hb
        rw [heq] at hU
        have : SUPPORTED_EXTS_TO_LANG.lookup ".py" = some "Python" := rfl
        rw [this] at hU
        exact Option.noConfusion hU
    have hex : ext_to_lang extU = Except.error "KeyError" := by
      simp [ext_to_lang, hU]
    simp [kited_ext_enabled, hpy, hex]

/-- Witness for the amended C9 with the always-failing transport,
`".go"` as the supported extension and `".txt"` as the unsupported one. -/
theorem kited_ext_enabled_amended_witness :
    kited_ext_enabled failGet ".py" = Except.ok true
    ∧ kited_ext_enabled failGet ".go" = Except.ok false
    ∧ kited_ext_enabled failGet ".txt" = Except.error "KeyError" :=
  kited_ext_enabled_amended failGet ".go" ".txt" (fun _ => rfl)
    (by decide) (by decide)

/-- A supported, size-passing Python view with two selection ranges
(multiple cursors). -/
def viewMulti : View :=
  { file_name := some "multi.py", size := 10, text := "abcdefghij",
    sel := [(0, 0), (5, 5)], matchSelector := fun _ => true }

/-- C10 fails on the code: on a supported, size-passing view whose
selection has two ranges, `_view_region` returns `None`, and the edit
handler then evaluates `edit_region['end']` inside the `match_selector`
gate, subscripting `None` — a `TypeError` escapes `_handle`, so the
handler is not total. -/
theorem handle_raises_on_multi_cursor_edit :
    handle viewMulti "edit" st0 = Except.error "TypeError" := by rfl
